import Mathlib

/-!
# MovieMateBot — verification of the user-state and discovery pipeline

Shallow embedding of the parts of the program that the specification's
claims talk about:

* `bot/utils/tmdb_api.py` — catalog client (normalization, result caps,
  discover parameter construction, genre cache shape);
* `bot/handlers/advanced_search.py` — filter/discovery session
  (toggle-genre, reset, genre-name translation, execute);
* `bot/handlers/recommendations.py` — recommendations flow;
* `database/models.py` — table schema (unique constraints / indexes);
* `database/crud.py` — user-store CRUD and statistics;
* `bot/main.py` — `handle_mark_watched` caller behaviour.

Network calls are modelled by passing the catalog response in as a value:
`ApiResult` is either `.ok rows` (HTTP success with a result list) or
`.err` (network/auth/parse failure, i.e. the `except` branch of the
Python function fires).  Database state is a record of row lists; each
CRUD function returns its Python result together with the successor
state.  Floats only ever hold exact decimal literals in this program
(ratings like 6.0, 7.5), so they are embedded as rationals.
-/

namespace MovieMate

/-! ## Python dictionary keys

`get_all_genres` builds a dict keyed by the *integer* genre id
(`{g.id: g.name}`), while `execute_search` indexes that dict with the
*string* elements of `filters['genres']`.  To keep that heterogeneity
observable we embed Python dict keys as a sum of the two kinds that
occur. -/

inductive PyKey where
  | pint (n : Int)
  | pstr (s : String)
deriving DecidableEq, Repr

/-- Python `d[k]`-style lookup in an association-list embedding of a Python
dict; `none` when the key is absent (the `g in d` guard). -/
def pyDictLookup (d : List (PyKey × String)) (k : PyKey) : Option String :=
  (d.find? (fun e => e.1 == k)).map (·.2)

/-! ## Catalog client (`bot/utils/tmdb_api.py`)

A raw catalog record, restricted to the source fields the claims
depend on.  `Option` encodes an absent key / JSON `null`. -/

structure RawMovie where
  id : Option Int
  title : Option String
  name : Option String
  release_date : Option String
  first_air_date : Option String
deriving DecidableEq, Repr

/-- The normalized record (`format_movie_data`'s result dict), projected
to the fields the claims use. -/
structure Movie where
  tmdb_id : Int
  media_type : String
  title : String
  year : Option Int
deriving DecidableEq, Repr

/-- Embeds `safe_get(movie, attr, default)` for string fields: absent → default. -/
def safeGetStr (v : Option String) (default : String) : String :=
  match v with
  | some s => s
  | none => default

/-- Python truthiness of an optional int (`if year:` treats 0 as false). -/
def pyTruthyInt : Option Int → Bool
  | none => false
  | some n => n != 0

/-- Embeds `format_movie_data(movie, media_type)` from `tmdb_api.py`:
title resolution by media kind with the `'Unknown'` sentinel, year
parsed from the first four characters of the date string with an
empty-year fallback, and the id coerced with a 0 fallback.
(Presentation-only fields — posters, overview, votes — are not
referenced by any claim and are omitted from the projection.) -/
def format_movie_data (movie : RawMovie) (media_type : String) : Movie :=
  let title₀ :=
    if media_type == "tv" then safeGetStr movie.name "Unknown"
    else safeGetStr movie.title "Unknown"
  let release_date :=
    if media_type == "tv" then safeGetStr movie.first_air_date ""
    else safeGetStr movie.release_date ""
  let title := if title₀ == "" || title₀ == "Unknown" then "Unknown Movie" else title₀
  let year : Option Int :=
    if release_date.length ≥ 4 then (release_date.take 4).toInt?
    else none
  let tmdb_id := match movie.id with
    | some n => n
    | none => 0
  { tmdb_id := tmdb_id, media_type := media_type, title := title, year := year }

/-- Outcome of one HTTP call to the catalog: a result list, or the
`except`-branch condition (network/auth/parse failure). -/
inductive ApiResult (α : Type) where
  | ok (results : List α)
  | err
deriving DecidableEq, Repr

/-- Embeds `search_movies` (`tmdb_api.py`): format every row, optionally filter
by year client-side (`if year:` — falsy 0 skips the filter), then
`movies[:10]`.  Any exception yields `[]`. -/
def search_movies (api : ApiResult RawMovie) (year : Option Int) : List Movie :=
  match api with
  | .err => []
  | .ok results =>
    let movies := results.map (fun m => format_movie_data m "movie")
    let movies :=
      if pyTruthyInt year then movies.filter (fun m => m.year == year)
      else movies
    movies.take 10

/-- The append-with-cap loop shared by `search_tv`, `get_popular_movies`,
`get_trending` and `get_movie_recommendations`: format each row, append
(`if formatted:` — a successful format is a non-empty dict, hence
truthy), break once `cap` rows are collected. -/
def takeFormatted (cap : Nat) (media_type : String) (results : List RawMovie) : List Movie :=
  (results.map (fun m => format_movie_data m media_type)).take cap

/-- Embeds `get_popular_movies`: cap 10. -/
def get_popular_movies (api : ApiResult RawMovie) : List Movie :=
  match api with
  | .err => []
  | .ok results => takeFormatted 10 "movie" results

/-- Embeds `get_trending`: cap 10 (movie or tv media kind). -/
def get_trending (media_type : String) (api : ApiResult RawMovie) : List Movie :=
  match api with
  | .err => []
  | .ok results => takeFormatted 10 media_type results

/-- Embeds `get_movie_recommendations`: cap 10. -/
def get_movie_recommendations (api : ApiResult RawMovie) : List Movie :=
  match api with
  | .err => []
  | .ok results => takeFormatted 10 "movie" results

/-- Embeds `search_tv`: cap 10. -/
def search_tv (api : ApiResult RawMovie) : List Movie :=
  match api with
  | .err => []
  | .ok results => takeFormatted 10 "tv" results

/-- The TV-shows block loop (`search_tv_shows`, `get_trending_tv`,
`get_popular_tv_shows`, `get_tv_recommendations`): slice the raw list to
`results[:20]`, then keep rows with `formatted and
formatted.get('tmdb_id')` — i.e. a non-zero coerced id. -/
def takeValidTv (results : List RawMovie) : List Movie :=
  ((results.take 20).map (fun m => format_movie_data m "tv")).filter
    (fun m => m.tmdb_id != 0)

/-- Embeds `search_tv_shows` (TV-shows block): slice 20, keep valid rows. -/
def search_tv_shows (api : ApiResult RawMovie) : List Movie :=
  match api with
  | .err => []
  | .ok results => takeValidTv results

/-- Embeds `get_trending_tv`: slice 20, keep valid rows. -/
def get_trending_tv (api : ApiResult RawMovie) : List Movie :=
  match api with
  | .err => []
  | .ok results => takeValidTv results

/-- Embeds `get_popular_tv_shows`: slice 20, keep valid rows. -/
def get_popular_tv_shows (api : ApiResult RawMovie) : List Movie :=
  match api with
  | .err => []
  | .ok results => takeValidTv results

/-- Embeds `get_tv_recommendations`: try `recommendations`, fall back to
`similar` when empty, then slice 20 and keep valid rows. -/
def get_tv_recommendations (recs similar : ApiResult RawMovie) : List Movie :=
  match recs with
  | .err => []
  | .ok rs =>
    let results := if rs.isEmpty then similar else .ok rs
    match results with
    | .err => []
    | .ok rs' => if rs'.isEmpty then [] else takeValidTv rs'

/-! ### Discover (`discover_movies` / `discover_tv_shows`)

The parameter dict sent to the catalog's discover endpoint, and the
result pipeline (format every row, keep rows whose coerced id is
non-zero, stop at 20). -/

/-- The keyword arguments of a `discover_movies(...)` call site. -/
structure DiscoverArgs where
  genre_ids : Option (List Int)
  min_rating : ℚ
  year_from : Option Int
  year_to : Option Int
  sort_by : String
  page : Int
deriving DecidableEq, Repr

/-- The parameter dict `discover_params` that `discover_movies` builds
and sends: genres pipe-joined (OR), rating floor plus a vote-count
floor of 100 when `min_rating > 0`, inclusive date bounds, sort key. -/
structure DiscoverParams where
  with_genres : Option String
  vote_average_gte : Option ℚ
  vote_count_gte : Option Int
  primary_release_date_gte : Option String
  primary_release_date_lte : Option String
  sort_by : String
deriving DecidableEq, Repr

/-- Python `'|'.join(map(str, genre_ids))`. -/
def pipeJoin (ids : List Int) : String :=
  String.intercalate "|" (ids.map toString)

/-- The `discover_params` construction in `discover_movies`
(`if genre_ids:` / `if min_rating > 0:` / `if year_from:` /
`if year_to:` guards, with Python falsiness for the empty list and 0). -/
def buildDiscoverParams (args : DiscoverArgs) : DiscoverParams :=
  let genres := match args.genre_ids with
    | some ids => if ids.isEmpty then none else some (pipeJoin ids)
    | none => none
  let ratingOn := args.min_rating > 0
  { with_genres := genres
    vote_average_gte := if ratingOn then some args.min_rating else none
    vote_count_gte := if ratingOn then some 100 else none
    primary_release_date_gte :=
      if pyTruthyInt args.year_from then
        (args.year_from.map (fun y => toString y ++ "-01-01"))
      else none
    primary_release_date_lte :=
      if pyTruthyInt args.year_to then
        (args.year_to.map (fun y => toString y ++ "-12-31"))
      else none
    sort_by := args.sort_by }

/-- The discover result loop: append when `formatted and
formatted.get('tmdb_id')`, break once 20 rows are collected — i.e. the
first 20 valid rows. -/
def takeValidDiscover (results : List RawMovie) : List Movie :=
  ((results.map (fun m => format_movie_data m "movie")).filter
    (fun m => m.tmdb_id != 0)).take 20

/-- Embeds `discover_movies` (`tmdb_api.py`): build the parameter dict, call
the API, return `[]` on a missing/failed response, else the first 20
valid normalized rows.  Every exception path returns `[]`. -/
def discover_movies (api : DiscoverParams → ApiResult RawMovie) (args : DiscoverArgs) :
    List Movie :=
  match api (buildDiscoverParams args) with
  | .err => []
  | .ok results => takeValidDiscover results

/-- The parameter dict `discover_tv_shows` builds: same shape as the
movie variant but with `first_air_date` bounds and a vote-count floor
of 50 ("Lower threshold for TV"). -/
structure DiscoverTvParams where
  with_genres : Option String
  vote_average_gte : Option ℚ
  vote_count_gte : Option Int
  first_air_date_gte : Option String
  first_air_date_lte : Option String
  sort_by : String
deriving DecidableEq, Repr

/-- Embeds the `discover_params` construction in `discover_tv_shows`
(`if genre_ids:` / `if min_rating > 0:` / `if year_from:` /
`if year_to:` guards, vote-count floor 50, first-air-date bounds). -/
def buildDiscoverTvParams (args : DiscoverArgs) : DiscoverTvParams :=
  let genres := match args.genre_ids with
    | some ids => if ids.isEmpty then none else some (pipeJoin ids)
    | none => none
  let ratingOn := args.min_rating > 0
  { with_genres := genres
    vote_average_gte := if ratingOn then some args.min_rating else none
    vote_count_gte := if ratingOn then some 50 else none
    first_air_date_gte :=
      if pyTruthyInt args.year_from then
        (args.year_from.map (fun y => toString y ++ "-01-01"))
      else none
    first_air_date_lte :=
      if pyTruthyInt args.year_to then
        (args.year_to.map (fun y => toString y ++ "-12-31"))
      else none
    sort_by := args.sort_by }

/-- The discover-TV result loop: append when `formatted and
formatted.get('tmdb_id')`, break once 20 rows are collected — i.e. the
first 20 valid rows, formatted with the tv media kind. -/
def takeValidDiscoverTv (results : List RawMovie) : List Movie :=
  ((results.map (fun m => format_movie_data m "tv")).filter
    (fun m => m.tmdb_id != 0)).take 20

/-- Embeds `discover_tv_shows` (`tmdb_api.py`): build the TV parameter
dict, call the API, return `[]` on a missing/failed response, else the
first 20 valid normalized rows.  Every exception path returns `[]`. -/
def discover_tv_shows (api : DiscoverTvParams → ApiResult RawMovie)
    (args : DiscoverArgs) : List Movie :=
  match api (buildDiscoverTvParams args) with
  | .err => []
  | .ok results => takeValidDiscoverTv results

/-! ## Genre cache and the advanced-search session
(`bot/handlers/advanced_search.py`, genre cache in `tmdb_api.py`)

`get_all_genres` populates a process-lifetime dict `{g.id: g.name}` —
keyed by the *integer* id, with the *name* as value.  The catalog's
genre list is passed in as the `(id, name)` pairs the API returned. -/

/-- The dict `get_all_genres` returns, as built by
`{g.id: g.name for g in genres}`: keys are integer ids. -/
def get_all_genres (catalog : List (Int × String)) : List (PyKey × String) :=
  catalog.map (fun e => (PyKey.pint e.1, e.2))

/-- Embeds `show_genre_selection` iterates `sorted(genres.items())` unpacking
each item as `genre_name, genre_id` — which actually binds the dict
*key* (the integer id) to `genre_name` — and emits
`callback_data=f"toggle_genre_{genre_name}"`; `main.py` strips the
prefix back off.  So the string that reaches `toggle_genre` for an
entry is the decimal rendering of the id. -/
def toggle_callback_payload (entry : PyKey × String) : String :=
  match entry.1 with
  | PyKey.pint n => toString n
  | PyKey.pstr s => s

/-- Embeds `toggle_genre`: `list.remove` (first occurrence) if present, else
`append`. -/
def toggle_genre (selected : List String) (genre_name : String) : List String :=
  if genre_name ∈ selected then selected.erase genre_name
  else selected ++ [genre_name]

/-- The genre-id translation in `execute_search`:
`[all_genres[g] for g in filters['genres'] if g in all_genres]`, where
`g` is a Python *string* and the dict is keyed by *integer* ids. -/
def execute_search_genre_ids (all_genres : List (PyKey × String))
    (selected : List String) : List String :=
  selected.filterMap (fun g => pyDictLookup all_genres (PyKey.pstr g))

/-! ### Filter state and reset -/

/-- The `search_filters` session dict. Ratings in this program are
exact decimal literals, embedded as rationals. -/
structure SearchFilters where
  genres : List String
  year_from : Option Int
  year_to : Option Int
  min_rating : ℚ
deriving DecidableEq, Repr

/-- The dict `start_advanced_search` and `reset_filters` install. -/
def defaultFilters : SearchFilters :=
  { genres := [], year_from := none, year_to := none, min_rating := 6 }

inductive ResetOutcome where
  | alreadyDefault
  | resetDone
deriving DecidableEq, Repr

/-- The already-at-default test in `reset_filters`:
`not genres and not year_from and not year_to and min_rating == 6.0`
(Python falsiness: empty list, `None`, or 0). -/
def isDefaultCheck (f : SearchFilters) : Bool :=
  f.genres.isEmpty && !(pyTruthyInt f.year_from) && !(pyTruthyInt f.year_to)
    && decide (f.min_rating = 6)

/-- Embeds `reset_filters`: answer "already default" and leave the state
alone, or install the default dict. -/
def reset_filters (f : SearchFilters) : ResetOutcome × SearchFilters :=
  if isDefaultCheck f then (.alreadyDefault, f)
  else (.resetDone, defaultFilters)

/-! ### Executing the session (`execute_search`) -/

/-- Outcome of `execute_search` after the discover call: the handler
renders "😕 No Results" for an empty list and the result keyboard
otherwise.  There is no third branch. -/
inductive SearchOutcome where
  | noMatches
  | results (movies : List Movie)
deriving DecidableEq, Repr

def search_outcome (movies : List Movie) : SearchOutcome :=
  if movies.isEmpty then .noMatches else .results movies

/-- The keyword arguments `execute_search` assembles for
`discover_movies(**kwargs)`: the translated genre-id list only when
non-empty, both year bounds only when both are truthy, the session's
min-rating (default 6.0), popularity-descending sort, page 1.
The translated "ids" are the strings the dict lookup produced. -/
structure ExecuteKwargs where
  genre_ids : Option (List String)
  min_rating : ℚ
  year_from : Option Int
  year_to : Option Int
  sort_by : String
  page : Int
deriving DecidableEq, Repr

def execute_search_kwargs (all_genres : List (PyKey × String))
    (f : SearchFilters) : ExecuteKwargs :=
  let genre_ids :=
    if f.genres.isEmpty then []
    else execute_search_genre_ids all_genres f.genres
  { genre_ids := if genre_ids.isEmpty then none else some genre_ids
    min_rating := f.min_rating
    year_from :=
      if pyTruthyInt f.year_from && pyTruthyInt f.year_to then f.year_from else none
    year_to :=
      if pyTruthyInt f.year_from && pyTruthyInt f.year_to then f.year_to else none
    sort_by := "popularity.desc"
    page := 1 }

/-! ## Schema (`database/models.py`)

The `__table_args__` tuples of the `Favorite` and `WatchHistory`
models, embedded verbatim so the presence/absence of storage-layer
constraints is a checkable fact. -/

inductive TableArg where
  | uniqueConstraint (cols : List String) (cname : String)
  | index (iname : String) (cols : List String)
deriving DecidableEq, Repr

/-- Embeds `Favorite.__table_args__`. -/
def favorite_table_args : List TableArg :=
  [ .uniqueConstraint ["user_id", "tmdb_id"] "uq_user_favorite"
  , .index "idx_favorite_user" ["user_id"]
  , .index "idx_favorite_tmdb" ["tmdb_id"] ]

/-- Embeds `WatchHistory.__table_args__` — indexes only, no unique constraint. -/
def watch_history_table_args : List TableArg :=
  [ .index "idx_watch_user" ["user_id"]
  , .index "idx_watch_tmdb" ["tmdb_id"]
  , .index "idx_watch_date" ["watched_at"] ]

/-- Whether a table declares a uniqueness constraint on a column set. -/
def hasUniqueConstraintOn (args : List TableArg) (cols : List String) : Bool :=
  args.any (fun a =>
    match a with
    | .uniqueConstraint cs _ => cs == cols
    | .index _ _ => false)

/-! ## User store (`database/crud.py`)

Rows are projected to identity plus the fields the claims mention; the
denormalized snapshot columns (poster, overview, …) ride along in
`title`/`media_type` representatively and do not affect any claim.
`rid` is the autoincrement primary key. -/

structure FavoriteRow where
  rid : Nat
  user_id : Nat
  tmdb_id : Int
  media_type : String
  title : String
deriving DecidableEq, Repr

structure WatchRow where
  rid : Nat
  user_id : Nat
  tmdb_id : Int
  media_type : String
  title : String
deriving DecidableEq, Repr

structure SearchRow where
  rid : Nat
  user_id : Nat
  query : String
  results_count : Int
deriving DecidableEq, Repr

/-- Database state: the three row tables plus the next autoincrement
key. -/
structure DB where
  favorites : List FavoriteRow
  watch_history : List WatchRow
  search_history : List SearchRow
  next_id : Nat
deriving DecidableEq, Repr

def emptyDB : DB := { favorites := [], watch_history := [], search_history := [], next_id := 1 }

/-- Row match for a `(user, catalog-id)` pair. -/
def favMatches (user_id : Nat) (tmdb_id : Int) (f : FavoriteRow) : Bool :=
  f.user_id == user_id && f.tmdb_id == tmdb_id

def watchMatches (user_id : Nat) (tmdb_id : Int) (w : WatchRow) : Bool :=
  w.user_id == user_id && w.tmdb_id == tmdb_id

/-- Embeds `add_to_favorites`: insert and commit; the storage layer's
`uq_user_favorite` constraint raises `IntegrityError` exactly when a
row with the same `(user_id, tmdb_id)` already exists, in which case
the function rolls back and returns `None`. -/
def add_to_favorites (db : DB) (user_id : Nat) (tmdb_id : Int)
    (media_type title : String) : Option FavoriteRow × DB :=
  if db.favorites.any (favMatches user_id tmdb_id) then
    (none, db)
  else
    let row : FavoriteRow :=
      { rid := db.next_id, user_id := user_id, tmdb_id := tmdb_id
        media_type := media_type, title := title }
    (some row, { db with favorites := db.favorites ++ [row], next_id := db.next_id + 1 })

/-- Embeds `remove_from_favorites`: delete the first row matching the pair and
return `True`; return `False` when none matches. -/
def remove_from_favorites (db : DB) (user_id : Nat) (tmdb_id : Int) : Bool × DB :=
  if db.favorites.any (favMatches user_id tmdb_id) then
    (true, { db with favorites := db.favorites.eraseP (favMatches user_id tmdb_id) })
  else
    (false, db)

/-- Embeds `is_in_favorites`. -/
def is_in_favorites (db : DB) (user_id : Nat) (tmdb_id : Int) : Bool :=
  db.favorites.any (favMatches user_id tmdb_id)

/-- Embeds `add_to_watch_history`: an *application-level* pre-insert check —
return the existing row when the pair is present (the table has no
unique constraint), else insert a fresh row and return it. -/
def add_to_watch_history (db : DB) (user_id : Nat) (tmdb_id : Int)
    (media_type title : String) : Option WatchRow × DB :=
  match db.watch_history.find? (watchMatches user_id tmdb_id) with
  | some existing => (some existing, db)
  | none =>
    let row : WatchRow :=
      { rid := db.next_id, user_id := user_id, tmdb_id := tmdb_id
        media_type := media_type, title := title }
    (some row, { db with watch_history := db.watch_history ++ [row], next_id := db.next_id + 1 })

/-- Embeds `remove_from_watch_history`: delete the first matching row / `False`. -/
def remove_from_watch_history (db : DB) (user_id : Nat) (tmdb_id : Int) : Bool × DB :=
  if db.watch_history.any (watchMatches user_id tmdb_id) then
    (true, { db with watch_history := db.watch_history.eraseP (watchMatches user_id tmdb_id) })
  else
    (false, db)

/-- Embeds `is_watched`. -/
def is_watched (db : DB) (user_id : Nat) (tmdb_id : Int) : Bool :=
  db.watch_history.any (watchMatches user_id tmdb_id)

/-- Embeds `add_search_history`: append-only log. -/
def add_search_history (db : DB) (user_id : Nat) (query : String)
    (results_count : Int) : DB :=
  let row : SearchRow :=
    { rid := db.next_id, user_id := user_id, query := query, results_count := results_count }
  { db with search_history := db.search_history ++ [row], next_id := db.next_id + 1 }

/-- Embeds `get_user_stats` result dict. -/
structure UserStats where
  favorites : Nat
  watched : Nat
  searches : Nat
deriving DecidableEq, Repr

/-- Embeds `get_user_stats`: favorites and searches are plain row counts
(`query(...).count()`); watched is
`query(WatchHistory.tmdb_id).filter(user).distinct().count()` — the
number of distinct catalog-id values among the user's rows. -/
def get_user_stats (db : DB) (user_id : Nat) : UserStats :=
  { favorites := (db.favorites.filter (fun f => f.user_id == user_id)).length
    watched :=
      (((db.watch_history.filter (fun w => w.user_id == user_id)).map
        (fun w => w.tmdb_id)).dedup).length
    searches := (db.search_history.filter (fun s => s.user_id == user_id)).length }

/-! ### Reachable database states

The write operations the live code paths perform against these three
tables, and the states reachable from an empty store by running them. -/

inductive Op where
  | addFav (user_id : Nat) (tmdb_id : Int) (media_type title : String)
  | removeFav (user_id : Nat) (tmdb_id : Int)
  | addWatch (user_id : Nat) (tmdb_id : Int) (media_type title : String)
  | removeWatch (user_id : Nat) (tmdb_id : Int)
  | addSearch (user_id : Nat) (query : String) (results_count : Int)
deriving DecidableEq, Repr

def applyOp (db : DB) : Op → DB
  | .addFav u t mt ti => (add_to_favorites db u t mt ti).2
  | .removeFav u t => (remove_from_favorites db u t).2
  | .addWatch u t mt ti => (add_to_watch_history db u t mt ti).2
  | .removeWatch u t => (remove_from_watch_history db u t).2
  | .addSearch u q n => add_search_history db u q n

def runOps (ops : List Op) : DB := ops.foldl applyOp emptyDB

def Reachable (db : DB) : Prop := ∃ ops, runOps ops = db

/-- The per-table uniqueness invariant: `(user, catalog-id)` pairs are
pairwise distinct. -/
def pairsUnique (db : DB) : Prop :=
  (db.favorites.map (fun f => (f.user_id, f.tmdb_id))).Nodup ∧
  (db.watch_history.map (fun w => (w.user_id, w.tmdb_id))).Nodup

/-! ### `handle_mark_watched` (`bot/main.py`)

The caller checks `is_watched` first and answers "Already marked as
watched!" without touching the add path; otherwise it adds and answers
"Marked as watched!" when the add returned a row, "Already in watch
history!" when it returned `None`. -/

inductive MarkWatchedMsg where
  | alreadyWatched
  | marked
  | alreadyInHistory
deriving DecidableEq, Repr

def handle_mark_watched (db : DB) (user_id : Nat) (tmdb_id : Int)
    (title : String) : MarkWatchedMsg × DB :=
  if is_watched db user_id tmdb_id then
    (.alreadyWatched, db)
  else
    let (result, db') := add_to_watch_history db user_id tmdb_id "movie" title
    match result with
    | some _ => (.marked, db')
    | none => (.alreadyInHistory, db')

/-! ## Recommendations flow (`bot/handlers/recommendations.py`) -/

/-- What `show_recommendations` renders. -/
inductive RecOutcome where
  | needFavorites
  | tryLater
  | results (movies : List Movie)
deriving DecidableEq, Repr

/-- The static fallback call:
`discover_movies(min_rating=7.0, sort_by='popularity.desc', page=1)`. -/
def recommendationsFallbackArgs : DiscoverArgs :=
  { genre_ids := none, min_rating := 7, year_from := none, year_to := none
    sort_by := "popularity.desc", page := 1 }

/-- Embeds `show_recommendations`, given the user's favorite catalog-ids (as
extracted inside the session) and the two catalog operations as
oracles.  Returns the rendered outcome together with the list of
discover calls made.  An empty favorites list short-circuits to the
"I need to learn your taste first" prompt; the discover fallback runs
only when favorites exist and the per-title recommendations call
returned nothing. -/
def show_recommendations (favorite_ids : List Int)
    (recsFor : Int → List Movie) (discover : DiscoverArgs → List Movie) :
    RecOutcome × List DiscoverArgs :=
  match favorite_ids with
  | [] => (.needFavorites, [])
  | first :: _ =>
    let movies := recsFor first
    if movies.isEmpty then
      let fallback := discover recommendationsFallbackArgs
      if fallback.isEmpty then (.tryLater, [recommendationsFallbackArgs])
      else (.results fallback, [recommendationsFallbackArgs])
    else (.results movies, [])

/-! ## Helper lemmas -/

/-- The pair of a new favorite row is fresh when the duplicate check failed. -/
lemma pair_not_mem_of_any_fav_false {db : DB} {u : Nat} {t : Int}
    (h : db.favorites.any (favMatches u t) = false) :
    (u, t) ∉ db.favorites.map (fun f => (f.user_id, f.tmdb_id)) := by
  intro hm
  rcases List.mem_map.mp hm with ⟨f, hfmem, heq⟩
  have hfalse := List.any_eq_false.mp h f hfmem
  apply hfalse
  have h1 : f.user_id = u := congrArg Prod.fst heq
  have h2 : f.tmdb_id = t := congrArg Prod.snd heq
  simp [favMatches, h1, h2]

lemma pair_not_mem_of_find_watch_none {db : DB} {u : Nat} {t : Int}
    (h : db.watch_history.find? (watchMatches u t) = none) :
    (u, t) ∉ db.watch_history.map (fun w => (w.user_id, w.tmdb_id)) := by
  intro hm
  rcases List.mem_map.mp hm with ⟨w, hwmem, heq⟩
  have hfalse := List.find?_eq_none.mp h w hwmem
  apply hfalse
  have h1 : w.user_id = u := congrArg Prod.fst heq
  have h2 : w.tmdb_id = t := congrArg Prod.snd heq
  simp [watchMatches, h1, h2]

lemma nodup_map_eraseP {α β : Type} (l : List α) (f : α → β) (p : α → Bool)
    (h : (l.map f).Nodup) : ((l.eraseP p).map f).Nodup :=
  h.sublist ((List.eraseP_sublist l).map f)

/-- Every write operation preserves the per-table pair uniqueness. -/
lemma pairsUnique_applyOp {db : DB} (h : pairsUnique db) (op : Op) :
    pairsUnique (applyOp db op) := by
  obtain ⟨hf, hw⟩ := h
  cases op with
  | addFav u t mt ti =>
    unfold applyOp add_to_favorites
    by_cases hc : db.favorites.any (favMatches u t) = true
    · simp only [hc, if_true]
      exact ⟨hf, hw⟩
    · have hc' : db.favorites.any (favMatches u t) = false := by
        simpa using hc
      simp only [hc', Bool.false_eq_true, if_false]
      refine ⟨?_, hw⟩
      rw [List.map_append]
      simp only [List.map_cons, List.map_nil]
      rw [List.nodup_append]
      exact ⟨hf, List.nodup_singleton _,
        by
          intro a ha hb
          simp only [List.mem_singleton] at hb
          subst hb
          exact pair_not_mem_of_any_fav_false hc' ha⟩
  | removeFav u t =>
    unfold applyOp remove_from_favorites
    by_cases hc : db.favorites.any (favMatches u t) = true
    · simp only [hc, if_true]
      exact ⟨nodup_map_eraseP _ _ _ hf, hw⟩
    · simp only [hc, if_false]
      exact ⟨hf, hw⟩
  | addWatch u t mt ti =>
    cases hc : db.watch_history.find? (watchMatches u t) with
    | some w =>
      simp only [applyOp, add_to_watch_history, hc]
      exact ⟨hf, hw⟩
    | none =>
      simp only [applyOp, add_to_watch_history, hc]
      refine ⟨hf, ?_⟩
      rw [List.map_append]
      simp only [List.map_cons, List.map_nil]
      rw [List.nodup_append]
      exact ⟨hw, List.nodup_singleton _,
        by
          intro a ha hb
          simp only [List.mem_singleton] at hb
          subst hb
          exact pair_not_mem_of_find_watch_none hc ha⟩
  | removeWatch u t =>
    unfold applyOp remove_from_watch_history
    by_cases hc : db.watch_history.any (watchMatches u t) = true
    · simp only [hc, if_true]
      exact ⟨hf, nodup_map_eraseP _ _ _ hw⟩
    · simp only [hc, if_false]
      exact ⟨hf, hw⟩
  | addSearch u q n =>
    unfold applyOp add_search_history
    exact ⟨hf, hw⟩

lemma pairsUnique_foldl (ops : List Op) :
    ∀ db : DB, pairsUnique db → pairsUnique (List.foldl applyOp db ops) := by
  induction ops with
  | nil => intro db h; exact h
  | cons op rest ih =>
    intro db h
    exact ih (applyOp db op) (pairsUnique_applyOp h op)

lemma pairsUnique_reachable {db : DB} (h : Reachable db) : pairsUnique db := by
  obtain ⟨ops, hops⟩ := h
  rw [← hops]
  have hempty : pairsUnique emptyDB := by
    constructor <;> simp [emptyDB]
  exact pairsUnique_foldl ops emptyDB hempty

/-! ## Concrete sample values used by witnesses and counterexamples -/

/-- A normalized record as the spec's "Inception" scenario example. -/
def sampleMovie : Movie :=
  { tmdb_id := 27205, media_type := "movie", title := "Inception", year := some 2010 }

/-- The discover call of the spec's Horror scenario (genre id 27,
years 2015–2020, min rating 7.0). -/
def horrorDiscoverArgs : DiscoverArgs :=
  { genre_ids := some [27], min_rating := 7, year_from := some 2015
    year_to := some 2020, sort_by := "popularity.desc", page := 1 }

/-- A raw TV record with a non-zero id (normalizes to a valid row). -/
def rawTvShow (n : Int) : RawMovie :=
  { id := some n, title := none, name := some "Sample Show"
    release_date := none, first_air_date := some "2020-01-01" }

/-- Eleven valid raw TV records with distinct ids. -/
def elevenRawShows : List RawMovie :=
  (List.range 11).map (fun n => rawTvShow (Int.ofNat n + 1))

/-! ## Claim C1 — recommendations fallback -/

/-- C1 fails as stated: for a user with zero favorites the
recommendations flow renders the "I need to learn your taste first"
prompt and performs no discover call at all — even against a discover
oracle that would return results.  The static fallback is not reached. -/
theorem C1_counterexample :
    show_recommendations [] (fun _ => []) (fun _ => [sampleMovie]) =
      (.needFavorites, []) := rfl

/-- C1 (amended): the static popularity-filtered discover fallback
(min-rating 7.0, popularity-descending, no genre filter) runs exactly
when the user has at least one favorite and the per-title
recommendations call for the first favorite returns nothing; a user
with zero favorites instead gets the "need favorites" prompt with no
discover call. -/
theorem C1_recommendations (ids : List Int)
    (recsFor : Int → List Movie) (discover : DiscoverArgs → List Movie) :
    (ids = [] → show_recommendations ids recsFor discover = (.needFavorites, [])) ∧
    (∀ first rest, ids = first :: rest → recsFor first = [] →
      show_recommendations ids recsFor discover =
        (if (discover recommendationsFallbackArgs).isEmpty then
          (.tryLater, [recommendationsFallbackArgs])
         else (.results (discover recommendationsFallbackArgs),
          [recommendationsFallbackArgs]))) ∧
    (∀ first rest, ids = first :: rest → recsFor first ≠ [] →
      show_recommendations ids recsFor discover = (.results (recsFor first), [])) ∧
    recommendationsFallbackArgs.min_rating = 7 ∧
    recommendationsFallbackArgs.sort_by = "popularity.desc" ∧
    recommendationsFallbackArgs.genre_ids = none := by
  refine ⟨?_, ?_, ?_, rfl, rfl, rfl⟩
  · intro h
    subst h
    rfl
  · intro first rest hids hrecs
    subst hids
    by_cases h : (discover recommendationsFallbackArgs).isEmpty
    · simp [show_recommendations, hrecs, h]
    · simp [show_recommendations, hrecs, h]
  · intro first rest hids hrecs
    subst hids
    cases hm : recsFor first with
    | nil => exact absurd hm hrecs
    | cons m ms => simp [show_recommendations, hm]

/-- Witness for C1, exercising all three cases: zero favorites yields
the prompt with no discover call; one favorite with empty per-title
recommendations and a one-movie discover oracle yields that movie via
exactly the fallback call; one favorite with non-empty per-title
recommendations yields those with no discover call. -/
theorem C1_recommendations_witness :
    show_recommendations [] (fun _ => ([] : List Movie)) (fun _ => [sampleMovie]) =
      (.needFavorites, []) ∧
    show_recommendations [27205] (fun _ => ([] : List Movie)) (fun _ => [sampleMovie]) =
      (.results [sampleMovie], [recommendationsFallbackArgs]) ∧
    show_recommendations [27205] (fun _ => [sampleMovie]) (fun _ => ([] : List Movie)) =
      (.results [sampleMovie], []) := by
  refine ⟨(C1_recommendations [] (fun _ => []) (fun _ => [sampleMovie])).1 rfl, ?_, ?_⟩
  · have h := (C1_recommendations [27205] (fun _ => [])
      (fun _ => [sampleMovie])).2.1 27205 [] rfl rfl
    simpa using h
  · exact (C1_recommendations [27205] (fun _ => [sampleMovie])
      (fun _ => [])).2.2.1 27205 [] rfl (by simp)

/-! ## Claim C3 — "no matches" vs. catalog failure -/

/-- C3 fails as stated: `discover_movies` swallows the failure branch
into the same empty list a 0-row response produces, and
`execute_search` renders the one "No Results" outcome for both — the
two situations are not distinguishable anywhere downstream. -/
theorem C3_counterexample :
    discover_movies (fun _ => .err) horrorDiscoverArgs =
      discover_movies (fun _ => .ok []) horrorDiscoverArgs ∧
    search_outcome (discover_movies (fun _ => .err) horrorDiscoverArgs) = .noMatches ∧
    search_outcome (discover_movies (fun _ => .ok []) horrorDiscoverArgs) = .noMatches :=
  ⟨rfl, rfl, rfl⟩

/-- C3 (amended): a 0-row discover and a `CatalogUnavailable` failure
both yield `[]` from `discover_movies`, and `execute_search` maps a
result list to exactly two outcomes — "no matches" precisely on the
empty list, the result view otherwise.  No separate "try again"
outcome exists on this path. -/
theorem C3_discover_empty (args : DiscoverArgs) :
    discover_movies (fun _ => .err) args = [] ∧
    discover_movies (fun _ => .ok []) args = [] ∧
    (∀ movies : List Movie, search_outcome movies = .noMatches ↔ movies = []) := by
  refine ⟨rfl, rfl, ?_⟩
  intro movies
  cases movies with
  | nil => simp [search_outcome]
  | cons m ms => simp [search_outcome]

/-! ## Claim C4 — genre-name translation -/

/-- C4 names a code bug: `get_all_genres` builds its dict keyed by the
integer genre id, but `execute_search` indexes it with the string
elements of `filters['genres']` (and `show_genre_selection`'s buttons
put the stringified *id* there, despite comments saying names).  A
string key never equals an integer key, so every selected genre is
dropped — even one whose name (or id) is in the catalog's current
genre list — and the discover call never receives a genre filter. -/
theorem C4_genre_translation :
    (∀ (catalog : List (Int × String)) (selected : List String),
      execute_search_genre_ids (get_all_genres catalog) selected = []) ∧
    (∀ (catalog : List (Int × String)) (f : SearchFilters),
      (execute_search_kwargs (get_all_genres catalog) f).genre_ids = none) ∧
    execute_search_genre_ids (get_all_genres [(28, "Action")]) ["Action"] = [] ∧
    execute_search_genre_ids (get_all_genres [(28, "Action")]) ["28"] = [] ∧
    toggle_callback_payload (PyKey.pint 28, "Action") = "28" := by
  have hlookup : ∀ (catalog : List (Int × String)) (g : String),
      pyDictLookup (get_all_genres catalog) (PyKey.pstr g) = none := by
    intro catalog g
    unfold pyDictLookup
    rw [List.find?_eq_none.mpr]
    · rfl
    · intro e he
      rcases List.mem_map.mp he with ⟨p, _, rfl⟩
      simp
  have hids : ∀ (catalog : List (Int × String)) (selected : List String),
      execute_search_genre_ids (get_all_genres catalog) selected = [] := by
    intro catalog selected
    unfold execute_search_genre_ids
    induction selected with
    | nil => rfl
    | cons g gs ih => simp [hlookup, ih]
  refine ⟨hids, ?_, hids _ _, hids _ _, rfl⟩
  intro catalog f
  unfold execute_search_kwargs
  by_cases hg : f.genres.isEmpty
  · simp [hg]
  · simp [hg, hids]

/-! ## Claim C6 — result-list caps -/

/-- C6 fails as stated: `get_tv_recommendations` (named by the claim)
caps at 20, not 10 — eleven valid raw rows all come through. -/
theorem C6_counterexample :
    (get_tv_recommendations (.ok elevenRawShows) .err).length = 11 := by decide

/-- C6 (amended): the movie-side operations (`search_movies`,
`get_popular_movies`, `get_trending`, `get_movie_recommendations`) and
`search_tv` cap their result lists at 10; `discover_movies`,
`discover_tv_shows` and the whole TV-shows block (`search_tv_shows`,
`get_trending_tv`, `get_popular_tv_shows`, `get_tv_recommendations`)
cap at 20. -/
theorem C6_result_caps (api recs similar : ApiResult RawMovie)
    (year : Option Int) (mt : String)
    (dapi : DiscoverParams → ApiResult RawMovie)
    (dtvapi : DiscoverTvParams → ApiResult RawMovie) (args : DiscoverArgs) :
    (search_movies api year).length ≤ 10 ∧
    (get_popular_movies api).length ≤ 10 ∧
    (get_trending mt api).length ≤ 10 ∧
    (get_movie_recommendations api).length ≤ 10 ∧
    (search_tv api).length ≤ 10 ∧
    (discover_movies dapi args).length ≤ 20 ∧
    (discover_tv_shows dtvapi args).length ≤ 20 ∧
    (search_tv_shows api).length ≤ 20 ∧
    (get_trending_tv api).length ≤ 20 ∧
    (get_popular_tv_shows api).length ≤ 20 ∧
    (get_tv_recommendations recs similar).length ≤ 20 := by
  have htv : ∀ rs : List RawMovie, (takeValidTv rs).length ≤ 20 := by
    intro rs
    calc (takeValidTv rs).length
        ≤ ((rs.take 20).map (fun m => format_movie_data m "tv")).length :=
          List.length_filter_le _ _
      _ = (rs.take 20).length := List.length_map _ _
      _ ≤ 20 := List.length_take_le _ _
  have htf : ∀ (c : Nat) (m : String) (rs : List RawMovie),
      (takeFormatted c m rs).length ≤ c := by
    intro c m rs
    exact List.length_take_le _ _
  refine ⟨?_, ?_, ?_, ?_, ?_, ?_, ?_, ?_, ?_, ?_, ?_⟩
  · cases api with
    | err => simp [search_movies]
    | ok rs =>
      unfold search_movies
      by_cases hy : pyTruthyInt year
      · simp only [hy, if_true]
        exact List.length_take_le _ _
      · simp only [hy, Bool.false_eq_true, if_false]
        exact List.length_take_le _ _
  · cases api with
    | err => simp [get_popular_movies]
    | ok rs => exact htf 10 "movie" rs
  · cases api with
    | err => simp [get_trending]
    | ok rs => exact htf 10 mt rs
  · cases api with
    | err => simp [get_movie_recommendations]
    | ok rs => exact htf 10 "movie" rs
  · cases api with
    | err => simp [search_tv]
    | ok rs => exact htf 10 "tv" rs
  · unfold discover_movies
    cases dapi (buildDiscoverParams args) with
    | err => simp
    | ok rs => exact List.length_take_le _ _
  · unfold discover_tv_shows
    cases dtvapi (buildDiscoverTvParams args) with
    | err => simp
    | ok rs => exact List.length_take_le _ _
  · cases api with
    | err => simp [search_tv_shows]
    | ok rs => exact htv rs
  · cases api with
    | err => simp [get_trending_tv]
    | ok rs => exact htv rs
  · cases api with
    | err => simp [get_popular_tv_shows]
    | ok rs => exact htv rs
  · cases recs with
    | err => simp [get_tv_recommendations]
    | ok rs =>
      unfold get_tv_recommendations
      by_cases hrs : rs.isEmpty
      · simp only [hrs, if_true]
        cases similar with
        | err => simp
        | ok rs2 =>
          by_cases hrs2 : rs2.isEmpty
          · simp [hrs2]
          · simp only [hrs2, Bool.false_eq_true, if_false]
            exact htv rs2
      · have hrs' : rs.isEmpty = false := by simpa using hrs
        simp only [hrs', Bool.false_eq_true, if_false]
        exact htv rs

/-! ## Counting helpers for "exactly one row" statements -/

lemma length_le_one_of_nodup_all_eq {β : Type} (l : List β) (b : β)
    (hn : l.Nodup) (h : ∀ x ∈ l, x = b) : l.length ≤ 1 := by
  match l with
  | [] => simp
  | [a] => simp
  | a :: c :: rest =>
    exfalso
    have ha := h a (by simp)
    have hcb := h c (by simp)
    rw [List.nodup_cons] at hn
    exact hn.1 (by rw [ha, hcb]; simp)

/-- When the images under `f` are pairwise distinct and `p` holds only
on rows mapping to `b`, an existing match makes the filtered list a
singleton. -/
lemma filter_length_one_of_nodup_map {α β : Type} (l : List α) (f : α → β)
    (p : α → Bool) (b : β) (hn : (l.map f).Nodup)
    (hb : ∀ x, p x = true → f x = b) (hex : l.any p = true) :
    (l.filter p).length = 1 := by
  have hsub : List.Sublist (l.filter p) l := List.filter_sublist l
  have hnodup : ((l.filter p).map f).Nodup := hn.sublist (hsub.map f)
  have hall : ∀ y ∈ (l.filter p).map f, y = b := by
    intro y hy
    rcases List.mem_map.mp hy with ⟨x, hx, rfl⟩
    exact hb x (List.of_mem_filter hx)
  have hle : ((l.filter p).map f).length ≤ 1 :=
    length_le_one_of_nodup_all_eq _ b hnodup hall
  rw [List.length_map] at hle
  have hge : 1 ≤ (l.filter p).length := by
    rcases List.any_eq_true.mp hex with ⟨x, hx, hpx⟩
    have hmem : x ∈ l.filter p := List.mem_filter.mpr ⟨hx, hpx⟩
    have := List.length_pos.mpr (List.ne_nil_of_mem hmem)
    omega
  omega

/-! ## Claim C2 — per-user uniqueness and its enforcement -/

/-- C2 fails as stated: the `WatchHistory` model declares only
non-unique indexes — there is no storage-layer uniqueness constraint
on `(user_id, tmdb_id)` for that table. -/
theorem C2_counterexample :
    hasUniqueConstraintOn watch_history_table_args ["user_id", "tmdb_id"] = false := by
  decide

/-- C2 (amended): in every database state reachable through the
repository's write operations, a `(user, catalog-id)` pair appears at
most once in `favorites` and at most once in `watch_history`; the
uniqueness is enforced by the storage-layer constraint
`uq_user_favorite` for `Favorite`, but for `WatchHistory` only by the
application-level pre-insert check in `add_to_watch_history` — the
table itself declares no unique constraint. -/
theorem C2_pair_uniqueness (db : DB) (h : Reachable db) :
    pairsUnique db ∧
    hasUniqueConstraintOn favorite_table_args ["user_id", "tmdb_id"] = true ∧
    hasUniqueConstraintOn watch_history_table_args ["user_id", "tmdb_id"] = false :=
  ⟨pairsUnique_reachable h, by decide, by decide⟩

/-- Witness for C2: a concrete reachable state (duplicate adds of the
same pair included) satisfies the pair-uniqueness invariant. -/
theorem C2_pair_uniqueness_witness :
    pairsUnique (runOps [Op.addFav 1 5 "movie" "A", Op.addWatch 1 5 "movie" "A",
      Op.addFav 1 5 "movie" "A", Op.addWatch 1 5 "movie" "A"]) ∧
    hasUniqueConstraintOn favorite_table_args ["user_id", "tmdb_id"] = true ∧
    hasUniqueConstraintOn watch_history_table_args ["user_id", "tmdb_id"] = false :=
  C2_pair_uniqueness _ ⟨[Op.addFav 1 5 "movie" "A", Op.addWatch 1 5 "movie" "A",
    Op.addFav 1 5 "movie" "A", Op.addWatch 1 5 "movie" "A"], rfl⟩

/-! ## Claim C5 — duplicate add signalling -/

/-- C5 fails as stated for the watch-history half: adding the pair
`(1, 5)` a second time returns literally the same value (`some` of the
existing row) that the first-time add returned — the caller's result
carries no "already present" signal — while the favorites path does
return `None` on the duplicate. -/
theorem C5_counterexample :
    (add_to_watch_history ((add_to_watch_history emptyDB 1 5 "movie" "Inception").2)
        1 5 "movie" "Inception").1 =
      (add_to_watch_history emptyDB 1 5 "movie" "Inception").1 ∧
    ((add_to_watch_history emptyDB 1 5 "movie" "Inception").1).isSome = true ∧
    (add_to_favorites ((add_to_favorites emptyDB 1 5 "movie" "Inception").2)
        1 5 "movie" "Inception").1 = none := by
  decide

/-- C5 (amended): a duplicate favorite add raises nothing, leaves the
state unchanged (hence exactly one row for the pair) and returns
`None`, which is distinguishable from the fresh-add `Some new-row`
result; a duplicate watch-history add raises nothing and leaves the
state unchanged with exactly one row, but returns the existing row —
a result of the same truthy kind as a fresh add; the user-visible
"already watched" signal comes from `handle_mark_watched`'s
`is_watched` pre-check instead. -/
theorem C5_duplicate_add (db : DB) (u : Nat) (t : Int) (mt ti : String) :
    (is_in_favorites db u t = true → add_to_favorites db u t mt ti = (none, db)) ∧
    (is_in_favorites db u t = false →
      ∃ row, add_to_favorites db u t mt ti =
        (some row, { db with favorites := db.favorites ++ [row], next_id := db.next_id + 1 })) ∧
    (is_watched db u t = true →
      (add_to_watch_history db u t mt ti).2 = db ∧
      ((add_to_watch_history db u t mt ti).1).isSome = true ∧
      handle_mark_watched db u t ti = (.alreadyWatched, db)) ∧
    (pairsUnique db → is_in_favorites db u t = true →
      ((add_to_favorites db u t mt ti).2.favorites.filter (favMatches u t)).length = 1) ∧
    (pairsUnique db → is_watched db u t = true →
      ((add_to_watch_history db u t mt ti).2.watch_history.filter
        (watchMatches u t)).length = 1) := by
  have hfavdup : is_in_favorites db u t = true →
      add_to_favorites db u t mt ti = (none, db) := by
    intro h
    unfold add_to_favorites
    unfold is_in_favorites at h
    simp [h]
  have hwatchstate : is_watched db u t = true →
      (add_to_watch_history db u t mt ti).2 = db ∧
      ((add_to_watch_history db u t mt ti).1).isSome = true := by
    intro h
    unfold is_watched at h
    have hfind : (db.watch_history.find? (watchMatches u t)).isSome := by
      rw [List.find?_isSome]
      rcases List.any_eq_true.mp h with ⟨w, hw, hpw⟩
      exact ⟨w, hw, hpw⟩
    cases hc : db.watch_history.find? (watchMatches u t) with
    | none => rw [hc] at hfind; simp at hfind
    | some w =>
      unfold add_to_watch_history
      rw [hc]
      exact ⟨rfl, rfl⟩
  refine ⟨hfavdup, ?_, ?_, ?_, ?_⟩
  · intro h
    unfold add_to_favorites
    unfold is_in_favorites at h
    simp [h]
  · intro h
    refine ⟨(hwatchstate h).1, (hwatchstate h).2, ?_⟩
    unfold handle_mark_watched
    simp [h]
  · intro hinv h
    rw [(by rw [hfavdup h] : (add_to_favorites db u t mt ti).2 = db)]
    unfold is_in_favorites at h
    exact filter_length_one_of_nodup_map db.favorites
      (fun f => (f.user_id, f.tmdb_id)) (favMatches u t) (u, t) hinv.1
      (by
        intro x hx
        unfold favMatches at hx
        rw [Bool.and_eq_true, beq_iff_eq, beq_iff_eq] at hx
        show (x.user_id, x.tmdb_id) = (u, t)
        rw [hx.1, hx.2])
      h
  · intro hinv h
    rw [(hwatchstate h).1]
    unfold is_watched at h
    exact filter_length_one_of_nodup_map db.watch_history
      (fun w => (w.user_id, w.tmdb_id)) (watchMatches u t) (u, t) hinv.2
      (by
        intro x hx
        unfold watchMatches at hx
        rw [Bool.and_eq_true, beq_iff_eq, beq_iff_eq] at hx
        show (x.user_id, x.tmdb_id) = (u, t)
        rw [hx.1, hx.2])
      h

/-- Witness for C5: at the state with pair `(1, 5)` in both tables the
duplicate adds keep a single row and favorites return `None`; on the
empty state the first add returns a fresh row. -/
theorem C5_duplicate_add_witness :
    (add_to_favorites (runOps [Op.addFav 1 5 "movie" "A", Op.addWatch 1 5 "movie" "A"])
      1 5 "movie" "A").1 = none ∧
    handle_mark_watched (runOps [Op.addFav 1 5 "movie" "A", Op.addWatch 1 5 "movie" "A"])
      1 5 "A" = (.alreadyWatched, runOps [Op.addFav 1 5 "movie" "A", Op.addWatch 1 5 "movie" "A"]) ∧
    ((add_to_favorites (runOps [Op.addFav 1 5 "movie" "A", Op.addWatch 1 5 "movie" "A"])
      1 5 "movie" "A").2.favorites.filter (favMatches 1 5)).length = 1 ∧
    ((add_to_watch_history (runOps [Op.addFav 1 5 "movie" "A", Op.addWatch 1 5 "movie" "A"])
      1 5 "movie" "A").2.watch_history.filter (watchMatches 1 5)).length = 1 ∧
    ∃ row, add_to_favorites emptyDB 1 5 "movie" "A" =
      (some row, { emptyDB with favorites := emptyDB.favorites ++ [row], next_id := emptyDB.next_id + 1 }) := by
  refine ⟨?_, ?_, ?_, ?_, ?_⟩
  · rw [(C5_duplicate_add _ 1 5 "movie" "A").1 (by decide)]
  · exact ((C5_duplicate_add _ 1 5 "A" "A").2.2.1 (by decide)).2.2
  · exact (C5_duplicate_add _ 1 5 "movie" "A").2.2.2.1 ⟨by decide, by decide⟩ (by decide)
  · exact (C5_duplicate_add _ 1 5 "movie" "A").2.2.2.2 ⟨by decide, by decide⟩ (by decide)
  · exact (C5_duplicate_add emptyDB 1 5 "movie" "A").2.1 (by decide)

/-! ## Claim C7 — reset-to-defaults -/

/-- C7: resetting a state that equals the defaults answers "already
default" and leaves the state untouched; resetting any other
(reachable — the setters never store year 0) state installs exactly
`{genres: [], year_from: None, year_to: None, min_rating: 6.0}`. -/
theorem C7_reset_filters (f : SearchFilters)
    (hyf : f.year_from ≠ some 0) (hyt : f.year_to ≠ some 0) :
    (f = defaultFilters → reset_filters f = (.alreadyDefault, f)) ∧
    (f ≠ defaultFilters → reset_filters f = (.resetDone, defaultFilters)) := by
  constructor
  · intro h
    subst h
    rfl
  · intro h
    have hc : isDefaultCheck f = false := by
      cases hh : isDefaultCheck f
      · rfl
      · exfalso
        unfold isDefaultCheck at hh
        rw [Bool.and_eq_true, Bool.and_eq_true, Bool.and_eq_true] at hh
        obtain ⟨⟨⟨hg, hyf'⟩, hyt'⟩, hmr⟩ := hh
        apply h
        obtain ⟨genres, yf, yt, mr⟩ := f
        have hg' : genres = [] := by
          cases genres with
          | nil => rfl
          | cons a l => simp [List.isEmpty] at hg
        have hyf0 : yf = none := by
          cases yf with
          | none => rfl
          | some n =>
            simp only [pyTruthyInt, Bool.not_eq_true'] at hyf'
            have : n = 0 := by simpa using hyf'
            subst this
            exact absurd rfl hyf
        have hyt0 : yt = none := by
          cases yt with
          | none => rfl
          | some n =>
            simp only [pyTruthyInt, Bool.not_eq_true'] at hyt'
            have : n = 0 := by simpa using hyt'
            subst this
            exact absurd rfl hyt
        have hmr' : mr = 6 := of_decide_eq_true hmr
        simp only at hg' hyf0 hyt0 hmr'
        rw [hg', hyf0, hyt0, hmr']
        rfl
    unfold reset_filters
    simp [hc]

/-- Witness for C7: the default state answers "already default"; a
fully non-default state resets to exactly the default dict. -/
theorem C7_reset_filters_witness :
    reset_filters defaultFilters = (.alreadyDefault, defaultFilters) ∧
    reset_filters { genres := ["Action"], year_from := some 2015, year_to := some 2020, min_rating := 7 } =
      (.resetDone, defaultFilters) := by
  constructor
  · exact (C7_reset_filters defaultFilters (by decide) (by decide)).1 rfl
  · exact (C7_reset_filters
      { genres := ["Action"], year_from := some 2015, year_to := some 2020, min_rating := 7 }
      (by decide) (by decide)).2 (by decide)

/-! ## Claim C8 — statistics -/

/-- C8: the watched statistic is the number of distinct catalog ids
among the user's watch-history rows (appending a duplicate row for an
already-present id leaves it unchanged), while favorites and searches
are plain row counts. -/
theorem C8_user_stats (db : DB) (u : Nat) :
    (get_user_stats db u).watched =
      ((db.watch_history.filter (fun w => w.user_id == u)).map
        (fun w => w.tmdb_id)).toFinset.card ∧
    (get_user_stats db u).favorites =
      (db.favorites.filter (fun f => f.user_id == u)).length ∧
    (get_user_stats db u).searches =
      (db.search_history.filter (fun s => s.user_id == u)).length ∧
    (∀ w : WatchRow, w.user_id = u →
      w.tmdb_id ∈ (db.watch_history.filter (fun x => x.user_id == u)).map
        (fun x => x.tmdb_id) →
      (get_user_stats { db with watch_history := db.watch_history ++ [w] } u).watched =
        (get_user_stats db u).watched) := by
  refine ⟨(List.card_toFinset _).symm, rfl, rfl, ?_⟩
  intro w hw hmem
  unfold get_user_stats
  simp only
  rw [List.filter_append]
  have hfw : List.filter (fun x => x.user_id == u) [w] = [w] := by
    simp [hw]
  rw [hfw, List.map_append]
  rw [← List.card_toFinset, ← List.card_toFinset]
  congr 1
  rw [List.toFinset_append]
  apply Finset.union_eq_left.mpr
  intro x hx
  simp only [List.toFinset_cons, List.toFinset_nil, List.map_cons, List.map_nil,
    Finset.mem_insert, Finset.not_mem_empty, or_false, Finset.mem_singleton] at hx
  rw [hx]
  exact List.mem_toFinset.mpr hmem

/-- Witness for C8: appending a duplicate watch row for an id the user
already has does not change the watched count. -/
theorem C8_user_stats_witness :
    (get_user_stats { emptyDB with watch_history :=
      [{ rid := 1, user_id := 1, tmdb_id := 5, media_type := "movie", title := "A" }] ++
      [{ rid := 2, user_id := 1, tmdb_id := 5, media_type := "movie", title := "A" }] } 1).watched =
    (get_user_stats { emptyDB with watch_history :=
      [{ rid := 1, user_id := 1, tmdb_id := 5, media_type := "movie", title := "A" }] } 1).watched :=
  (C8_user_stats { emptyDB with watch_history :=
      [{ rid := 1, user_id := 1, tmdb_id := 5, media_type := "movie", title := "A" }] } 1).2.2.2
    { rid := 2, user_id := 1, tmdb_id := 5, media_type := "movie", title := "A" }
    rfl (by decide)

/-! ## Claim C9 — genre toggle involution -/

/-- C9: on any duplicate-free selection (the only kind the toggle can
build), toggling the same genre name twice yields a selection with
exactly the original membership, and both intermediate selections stay
duplicate-free; order within the list may change (a re-added name goes
to the end), but the selection as a set is restored. -/
theorem C9_toggle_involution (s : List String) (g : String) (h : s.Nodup) :
    (∀ x, x ∈ toggle_genre (toggle_genre s g) g ↔ x ∈ s) ∧
    (toggle_genre s g).Nodup ∧
    (toggle_genre (toggle_genre s g) g).Nodup := by
  by_cases hg : g ∈ s
  · have h1 : toggle_genre s g = s.erase g := by
      simp [toggle_genre, hg]
    have hne : g ∉ s.erase g := h.not_mem_erase
    have h2 : toggle_genre (s.erase g) g = s.erase g ++ [g] := by
      simp [toggle_genre, hne]
    have herasenodup : (s.erase g).Nodup := h.erase g
    refine ⟨?_, by rw [h1]; exact herasenodup, ?_⟩
    · intro x
      rw [h1, h2]
      simp only [List.mem_append, List.mem_singleton]
      rw [h.mem_erase_iff]
      constructor
      · rintro (⟨_, hxs⟩ | rfl)
        · exact hxs
        · exact hg
      · intro hxs
        by_cases hxg : x = g
        · exact Or.inr hxg
        · exact Or.inl ⟨hxg, hxs⟩
    · rw [h1, h2, List.nodup_append]
      refine ⟨herasenodup, List.nodup_singleton g, ?_⟩
      intro a ha hb
      simp only [List.mem_singleton] at hb
      subst hb
      exact hne ha
  · have h1 : toggle_genre s g = s ++ [g] := by
      simp [toggle_genre, hg]
    have hg2 : g ∈ s ++ [g] := by simp
    have h2 : toggle_genre (s ++ [g]) g = s := by
      simp only [toggle_genre, hg2, if_true]
      rw [List.erase_append_right _ hg]
      simp
    have happnodup : (s ++ [g]).Nodup := by
      rw [List.nodup_append]
      refine ⟨h, List.nodup_singleton g, ?_⟩
      intro a ha hb
      simp only [List.mem_singleton] at hb
      subst hb
      exact hg ha
    refine ⟨?_, by rw [h1]; exact happnodup, ?_⟩
    · intro x
      rw [h1, h2]
    · rw [h1, h2]
      exact h

/-- Witness for C9: toggling "Horror" twice on `["Drama", "Horror"]`
keeps "Drama" in and brings "Horror" back; toggling "Comedy" twice
does not introduce it. -/
theorem C9_toggle_involution_witness :
    ("Horror" ∈ toggle_genre (toggle_genre ["Drama", "Horror"] "Horror") "Horror") ∧
    ("Comedy" ∉ toggle_genre (toggle_genre ["Drama", "Horror"] "Comedy") "Comedy") ∧
    (toggle_genre ["Drama", "Horror"] "Horror").Nodup := by
  have h := C9_toggle_involution ["Drama", "Horror"] "Horror" (by decide)
  have h2 := C9_toggle_involution ["Drama", "Horror"] "Comedy" (by decide)
  refine ⟨(h.1 "Horror").mpr (by decide), ?_, h.2.1⟩
  intro hc
  exact (by decide : ¬ ("Comedy" ∈ ["Drama", "Horror"])) ((h2.1 "Comedy").mp hc)

/-! ## Claim C10 — removal semantics -/

/-- C10: removing an absent pair returns `False` and changes nothing;
removing a present pair returns `True` and deletes exactly the first
matching row, leaving every other row and every other table intact. -/
theorem C10_remove (db : DB) (u : Nat) (t : Int) :
    (is_in_favorites db u t = false → remove_from_favorites db u t = (false, db)) ∧
    (is_watched db u t = false → remove_from_watch_history db u t = (false, db)) ∧
    (is_in_favorites db u t = true →
      (remove_from_favorites db u t).1 = true ∧
      ∃ r l₁ l₂, favMatches u t r = true ∧ (∀ x ∈ l₁, ¬ favMatches u t x) ∧
        db.favorites = l₁ ++ r :: l₂ ∧
        (remove_from_favorites db u t).2 = { db with favorites := l₁ ++ l₂ }) ∧
    (is_watched db u t = true →
      (remove_from_watch_history db u t).1 = true ∧
      ∃ r l₁ l₂, watchMatches u t r = true ∧ (∀ x ∈ l₁, ¬ watchMatches u t x) ∧
        db.watch_history = l₁ ++ r :: l₂ ∧
        (remove_from_watch_history db u t).2 = { db with watch_history := l₁ ++ l₂ }) := by
  refine ⟨?_, ?_, ?_, ?_⟩
  · intro h
    unfold is_in_favorites at h
    unfold remove_from_favorites
    simp [h]
  · intro h
    unfold is_watched at h
    unfold remove_from_watch_history
    simp [h]
  · intro h
    unfold is_in_favorites at h
    have hco : remove_from_favorites db u t =
        (true, { db with favorites := db.favorites.eraseP (favMatches u t) }) := by
      unfold remove_from_favorites
      simp [h]
    rcases List.any_eq_true.mp h with ⟨x, hx, hpx⟩
    rcases List.exists_of_eraseP hx hpx with ⟨r, l₁, l₂, hl1, hpr, heq, herase⟩
    rw [hco]
    exact ⟨rfl, r, l₁, l₂, hpr, hl1, heq, by rw [herase]⟩
  · intro h
    unfold is_watched at h
    have hco : remove_from_watch_history db u t =
        (true, { db with watch_history := db.watch_history.eraseP (watchMatches u t) }) := by
      unfold remove_from_watch_history
      simp [h]
    rcases List.any_eq_true.mp h with ⟨x, hx, hpx⟩
    rcases List.exists_of_eraseP hx hpx with ⟨r, l₁, l₂, hl1, hpr, heq, herase⟩
    rw [hco]
    exact ⟨rfl, r, l₁, l₂, hpr, hl1, heq, by rw [herase]⟩

/-- Witness for C10: both removals are `False` no-ops on the empty
store and `True` on a store holding the pair. -/
theorem C10_remove_witness :
    remove_from_favorites emptyDB 1 5 = (false, emptyDB) ∧
    remove_from_watch_history emptyDB 1 5 = (false, emptyDB) ∧
    (remove_from_favorites (runOps [Op.addFav 1 5 "movie" "A"]) 1 5).1 = true ∧
    (remove_from_watch_history (runOps [Op.addWatch 1 5 "movie" "A"]) 1 5).1 = true :=
  ⟨(C10_remove emptyDB 1 5).1 (by decide),
   (C10_remove emptyDB 1 5).2.1 (by decide),
   ((C10_remove (runOps [Op.addFav 1 5 "movie" "A"]) 1 5).2.2.1 (by decide)).1,
   ((C10_remove (runOps [Op.addWatch 1 5 "movie" "A"]) 1 5).2.2.2 (by decide)).1⟩

end MovieMate
